import Mathlib

/-!
Shallow embedding of `src/reservation_db.py` of the classroom reservation
manager (`admin_web_contest`), together with proofs about its reservation
scheduling and conflict-resolution logic.

Modelling conventions:
* Python `datetime.time` objects are represented by `Time` (hour/minute);
  `_parse_time` only ever constructs in-range values, mirroring the range
  check of the `time(hour, minute)` constructor.
* Python exceptions are modelled with `Except String`: a `ValueError`
  raised and not caught inside a function shows up as `.error msg`.
* The module-level globals `RESERVATIONS` (a dict, i.e. an insertion-ordered
  map with unique integer keys) and `_next_id` are bundled into a `Store`
  value that every operation threads explicitly.  The persisted JSON file is
  modelled by the `persisted` field; `_save_reservations` swallows `IOError`
  in the source and is modelled as an always-successful snapshot write.
* `datetime.now()` is an explicit `now : DateTime` argument of
  `create_reservation`.
* String scanning helpers (`splitOnCharAux`, `digitsOf`, `parsePyInt`) are
  written over `List Char` so that every definition evaluates by kernel
  reduction; they mirror `str.split`, the digit matching of
  `datetime.strptime`, and `int(...)` respectively.
-/

namespace ReservationDB

/-- A time of day, as produced by Python `datetime.time(hour, minute)`
(`_parse_time` always passes `second = 0`). -/
structure Time where
  hour : Nat
  minute : Nat
deriving DecidableEq, Repr

/-- A calendar date, as produced by `datetime.strptime(s, "%Y-%m-%d").date()`. -/
structure Date where
  year : Nat
  month : Nat
  day : Nat
deriving DecidableEq, Repr

/-- A full timestamp, as produced by `datetime.combine` or `datetime.now()`.
`second` folds in everything below the minute (seconds and microseconds);
timestamps built by `DateTime.combine` always have `second = 0`. -/
structure DateTime where
  year : Nat
  month : Nat
  day : Nat
  hour : Nat
  minute : Nat
  second : Nat
deriving DecidableEq, Repr

/-- `datetime.combine(reservation_date, start_time)`. -/
def DateTime.combine (d : Date) (t : Time) : DateTime :=
  ⟨d.year, d.month, d.day, t.hour, t.minute, 0⟩

/-- Python `datetime` comparison: lexicographic on the component fields. -/
def dtLt (a b : DateTime) : Bool :=
  if a.year ≠ b.year then decide (a.year < b.year)
  else if a.month ≠ b.month then decide (a.month < b.month)
  else if a.day ≠ b.day then decide (a.day < b.day)
  else if a.hour ≠ b.hour then decide (a.hour < b.hour)
  else if a.minute ≠ b.minute then decide (a.minute < b.minute)
  else decide (a.second < b.second)

/-- `str.split(sep)` for a one-character separator: splits at every
occurrence, keeping empty pieces, and yields `[whole]` when the separator
does not occur (in particular `[""]` on the empty string). -/
def splitOnCharAux (sep : Char) : List Char → List Char → List (List Char)
  | [], acc => [acc.reverse]
  | c :: cs, acc =>
    if c = sep then acc.reverse :: splitOnCharAux sep cs []
    else splitOnCharAux sep cs (c :: acc)

/-- The accumulating digit reader behind `digitsOf`. -/
def digitsToNatAux : List Char → Nat → Option Nat
  | [], acc => some acc
  | c :: cs, acc =>
    if c.isDigit then digitsToNatAux cs (acc * 10 + (c.toNat - 48))
    else none

/-- The numeric value of a nonempty all-digit character sequence (`none`
otherwise).  This is the digit-run matching performed by
`datetime.strptime` for `%Y`, `%m` and `%d` fields. -/
def digitsOf : List Char → Option Nat
  | [] => none
  | c :: cs => digitsToNatAux (c :: cs) 0

/-- Python `int(s)`: an optional single sign followed by a nonempty digit
run.  (CPython additionally strips surrounding whitespace and allows
underscore digit separators; nothing in this code base feeds it such
strings, and no property below depends on them.) -/
def parsePyInt : List Char → Option Int
  | [] => none
  | c :: cs =>
    if c = '-' then (digitsOf cs).map (fun n => -(n : Int))
    else if c = '+' then (digitsOf cs).map (fun n => (n : Int))
    else (digitsOf (c :: cs)).map (fun n => (n : Int))

/-- The `ValueError` message raised by `_parse_time`. -/
def invalid_time_msg (s : String) : String := "잘못된 시간 형식: " ++ s

/-- The `ValueError` message raised by `_parse_date`. -/
def invalid_date_msg (s : String) : String := "잘못된 날짜 형식: " ++ s

/-- `_parse_time`: split on `":"` into exactly two `int(...)`-parseable
pieces, then build `time(hour, minute)`; any failure along the way
(wrong piece count, non-integer piece, out-of-range component) is the
caught `ValueError`/`TypeError` re-raised as `ValueError(f"잘못된 시간 형식: {s}")`. -/
def parse_time (time_str : String) : Except String Time :=
  match splitOnCharAux ':' time_str.data [] with
  | [h_str, m_str] =>
    match parsePyInt h_str, parsePyInt m_str with
    | some hour, some minute =>
      if 0 ≤ hour ∧ hour ≤ 23 ∧ 0 ≤ minute ∧ minute ≤ 59 then
        .ok ⟨hour.toNat, minute.toNat⟩
      else .error (invalid_time_msg time_str)
    | _, _ => .error (invalid_time_msg time_str)
  | _ => .error (invalid_time_msg time_str)

/-- February length per the proleptic Gregorian rules used by `datetime.date`. -/
def isLeapYear (y : Nat) : Bool :=
  (y % 4 = 0 && y % 100 ≠ 0) || y % 400 = 0

/-- Month lengths of `datetime.date`. -/
def daysInMonth (y m : Nat) : Nat :=
  if m = 2 then (if isLeapYear y then 29 else 28)
  else if m = 4 ∨ m = 6 ∨ m = 9 ∨ m = 11 then 30
  else 31

/-- `_parse_date`: `datetime.strptime(date_str, "%Y-%m-%d").date()`.
`%Y` matches 1–4 digits, `%m` and `%d` match 1–2 digits, the dashes are
literal, the whole string must be consumed, and the resulting components
must form a real calendar date with year ≥ 1; any failure is re-raised as
`ValueError(f"잘못된 날짜 형식: {s}")`. -/
def parse_date (date_str : String) : Except String Date :=
  match splitOnCharAux '-' date_str.data [] with
  | [y_str, m_str, d_str] =>
    match digitsOf y_str, digitsOf m_str, digitsOf d_str with
    | some y, some m, some d =>
      if y_str.length ≤ 4 ∧ m_str.length ≤ 2 ∧ d_str.length ≤ 2 ∧
          1 ≤ y ∧ 1 ≤ m ∧ m ≤ 12 ∧ 1 ≤ d ∧ d ≤ daysInMonth y m then
        .ok ⟨y, m, d⟩
      else .error (invalid_date_msg date_str)
    | _, _, _ => .error (invalid_date_msg date_str)
  | _ => .error (invalid_date_msg date_str)

/-- `_is_past_datetime`: `datetime.combine(reservation_date, start_time) < now`. -/
def is_past_datetime (reservation_date : Date) (start_time : Time) (now : DateTime) : Bool :=
  dtLt (DateTime.combine reservation_date start_time) now

/-- `_is_valid_time_slot`. -/
def is_valid_time_slot (start_time end_time : Time) : Bool :=
  if start_time.minute ≠ 0 ∨ end_time.minute ≠ 0 then false
  else decide (end_time.hour = (start_time.hour + 1) % 24)

/-- The `time_to_minutes` helper inside `_is_time_overlap`. -/
def time_to_minutes (t : Time) : Nat := t.hour * 60 + t.minute

/-- `_is_time_overlap`. -/
def is_time_overlap (start1 end1 start2 end2 : Time) : Bool :=
  decide (time_to_minutes start1 < time_to_minutes end2) &&
    decide (time_to_minutes start2 < time_to_minutes end1)

/-- One value of the `RESERVATIONS` dict. -/
structure Reservation where
  user_id : String
  classroom_id : Int
  date : String
  start_time : String
  end_time : String
deriving DecidableEq, Repr

/-- The `RESERVATIONS` dict: insertion-ordered entries with (in any state the
program can build) pairwise distinct integer keys. -/
abbrev ResvMap := List (Int × Reservation)

/-- `RESERVATIONS.get(k)` / `RESERVATIONS[k]`. -/
def dictLookup (m : ResvMap) (k : Int) : Option Reservation :=
  match m with
  | [] => none
  | (k2, r) :: rest => if k2 = k then some r else dictLookup rest k

/-- `RESERVATIONS[k] = r`: overwrite in place when the key is present
(it never is, in states the program builds), append otherwise. -/
def dictInsert (m : ResvMap) (k : Int) (r : Reservation) : ResvMap :=
  match m with
  | [] => [(k, r)]
  | (k2, r2) :: rest =>
    if k2 = k then (k, r) :: rest else (k2, r2) :: dictInsert rest k r

/-- `del RESERVATIONS[k]`: on the unique-keyed maps the dict guarantees,
deleting the key is dropping every entry carrying it. -/
def dictErase (m : ResvMap) (k : Int) : ResvMap :=
  m.filter (fun p => !(p.1 = k : Bool))

/-- The module state of `reservation_db.py`: the `RESERVATIONS` dict, the
`_next_id` counter, and the content of `reservations.json` (what the last
successful `_save_reservations` wrote). -/
structure Store where
  reservations : ResvMap
  next_id : Int
  persisted : ResvMap × Int
deriving DecidableEq, Repr

/-- `_save_reservations()`: rewrite the file with a full snapshot.  The
source swallows `IOError`; the write is modelled as succeeding. -/
def save_reservations (s : Store) : Store :=
  { s with persisted := (s.reservations, s.next_id) }

def past_msg : String := "과거 시간은 예약할 수 없습니다."

def slot_shape_msg : String := "예약은 정시~정시 1시간 단위로만 가능합니다. (예: 14:00~15:00)"

def conflict_msg : String := "해당 시간에 이미 예약이 존재합니다."

def created_msg : String := "예약이 성공적으로 생성되었습니다."

def not_found_msg : String := "존재하지 않는 예약입니다."

def not_owner_msg : String := "본인의 예약만 취소할 수 있습니다."

def cancelled_msg : String := "예약이 취소되었습니다."

/-- The `for reservation in RESERVATIONS.values()` loop of
`create_reservation` (step 4): skip entries of another classroom or date
string; otherwise parse the stored times (`_parse_time` may raise here —
its `ValueError` is NOT caught by the `try` of step 1 and propagates) and
stop at the first overlap. -/
def scan_overlap (classroom_id : Int) (reservation_date : String)
    (start_obj end_obj : Time) : ResvMap → Except String Bool
  | [] => .ok false
  | (_, r) :: rest =>
    if r.classroom_id = classroom_id ∧ r.date = reservation_date then
      match parse_time r.start_time with
      | .error e => .error e
      | .ok existing_start =>
        match parse_time r.end_time with
        | .error e => .error e
        | .ok existing_end =>
          if is_time_overlap start_obj end_obj existing_start existing_end then .ok true
          else scan_overlap classroom_id reservation_date start_obj end_obj rest
    else scan_overlap classroom_id reservation_date start_obj end_obj rest

/-- `create_reservation`.  The returned pair is the Python
`(success, message)`; the whole result is wrapped in `Except` because the
step-4 scan can raise an uncaught `ValueError` on a stored record whose
time strings do not parse.  `now` is the `datetime.now()` sampled by
`_is_past_datetime`. -/
def create_reservation (user_id : String) (classroom_id : Int)
    (reservation_date start_time_str end_time_str : String)
    (now : DateTime) (s : Store) : Except String ((Bool × String) × Store) :=
  match parse_date reservation_date with
  | .error e => .ok ((false, e), s)
  | .ok reservation_date_obj =>
    match parse_time start_time_str with
    | .error e => .ok ((false, e), s)
    | .ok start_time_obj =>
      match parse_time end_time_str with
      | .error e => .ok ((false, e), s)
      | .ok end_time_obj =>
        if is_past_datetime reservation_date_obj start_time_obj now then
          .ok ((false, past_msg), s)
        else if !is_valid_time_slot start_time_obj end_time_obj then
          .ok ((false, slot_shape_msg), s)
        else
          match scan_overlap classroom_id reservation_date start_time_obj end_time_obj
              s.reservations with
          | .error e => .error e
          | .ok true => .ok ((false, conflict_msg), s)
          | .ok false =>
            -- step 5: `reservation_id = _next_id; _next_id += 1;
            -- RESERVATIONS[reservation_id] = {...}; _save_reservations()`
            .ok ((true, created_msg),
              save_reservations
                { reservations :=
                    dictInsert s.reservations s.next_id
                      ⟨user_id, classroom_id, reservation_date, start_time_str, end_time_str⟩,
                  next_id := s.next_id + 1,
                  persisted := s.persisted })

/-- `get_reservation`. -/
def get_reservation (s : Store) (reservation_id : Int) : Option Reservation :=
  dictLookup s.reservations reservation_id

/-- `get_user_reservations`; the `{**reservation, "id": res_id}` dict is
modelled as the `(id, record)` pair. -/
def get_user_reservations (s : Store) (user_id : String) : List (Int × Reservation) :=
  s.reservations.filter (fun p => p.2.user_id = user_id)

instance (priority := 1001) stringLtDec (a b : String) : Decidable (a < b) :=
  decidable_of_iff (a.toList < b.toList) String.lt_iff_toList_lt.symm

instance (priority := 1001) stringLeDec (a b : String) : Decidable (a ≤ b) :=
  decidable_of_iff (a.toList ≤ b.toList) String.le_iff_toList_le.symm

/-- The sort key `lambda r: (r["date"], r["start_time"])`, compared as
Python compares string tuples: lexicographically. -/
def keyLe (a b : Int × Reservation) : Prop :=
  a.2.date < b.2.date ∨ (a.2.date = b.2.date ∧ a.2.start_time ≤ b.2.start_time)

instance keyLe.decRel : DecidableRel keyLe := fun a b =>
  inferInstanceAs (Decidable (_ ∨ _))

/-- `get_classroom_reservations`; `list.sort` (a stable sort by the key
above) is modelled by insertion sort, and the Python falsy test `if date:`
keeps `None` and `""` from filtering. -/
def get_classroom_reservations (s : Store) (classroom_id : Int)
    (date : Option String) : List (Int × Reservation) :=
  let reservations := s.reservations.filter (fun p => p.2.classroom_id = classroom_id)
  let reservations :=
    match date with
    | some d => if d = "" then reservations else reservations.filter (fun p => p.2.date = d)
    | none => reservations
  List.insertionSort keyLe reservations

/-- `cancel_reservation`. -/
def cancel_reservation (reservation_id : Int) (user_id : String) (s : Store) :
    (Bool × String) × Store :=
  match dictLookup s.reservations reservation_id with
  | none => ((false, not_found_msg), s)
  | some reservation =>
    if reservation.user_id ≠ user_id then ((false, not_owner_msg), s)
    else
      ((true, cancelled_msg),
        save_reservations { s with reservations := dictErase s.reservations reservation_id })

/-- `delete_reservation` (admin path). -/
def delete_reservation (reservation_id : Int) (s : Store) : Bool × Store :=
  match dictLookup s.reservations reservation_id with
  | some _ =>
    (true, save_reservations { s with reservations := dictErase s.reservations reservation_id })
  | none => (false, s)

/-- A mutating call against the store (the argument bundle of one of the
three mutating operations; `now` is the wall clock a `create` call sees). -/
inductive Op where
  | create (user_id : String) (classroom_id : Int)
      (reservation_date start_time_str end_time_str : String) (now : DateTime)
  | cancel (reservation_id : Int) (user_id : String)
  | del (reservation_id : Int)

/-- The store left behind by one operation (an uncaught exception aborts
`create_reservation` before any mutation, leaving the store as it was). -/
def applyOp (s : Store) : Op → Store
  | .create u c d st et now =>
    match create_reservation u c d st et now s with
    | .ok (_, s2) => s2
    | .error _ => s
  | .cancel rid u => (cancel_reservation rid u s).2
  | .del rid => (delete_reservation rid s).2

/-- The store after a sequence of operations. -/
def applyOps (s : Store) : List Op → Store
  | [] => s
  | op :: ops => applyOps (applyOp s op) ops

/-- Two stored records conflict when they are for the same classroom, carry
the same date string, and their stored time strings parse to overlapping
`[start, end)` intervals (records whose time strings do not parse constrain
nothing). -/
def records_conflict (r1 r2 : Reservation) : Bool :=
  decide (r1.classroom_id = r2.classroom_id) && decide (r1.date = r2.date) &&
    match parse_time r1.start_time, parse_time r1.end_time,
        parse_time r2.start_time, parse_time r2.end_time with
    | .ok s1, .ok e1, .ok s2, .ok e2 => is_time_overlap s1 e1 s2 e2
    | _, _, _, _ => false

/-- The booking invariant: no two distinct live reservations for the same
classroom and the same date string have overlapping intervals. -/
def NoOverlapInv (s : Store) : Prop :=
  s.reservations.Pairwise (fun a b => records_conflict a.2 b.2 = false)

/-- The id-freshness invariant: the `_next_id` counter is strictly above
every id present in the store. -/
def IdInv (s : Store) : Prop :=
  ∀ p ∈ s.reservations, p.1 < s.next_id

/-- A sample wall-clock instant (well before year 2099) used by the
concrete scenarios below. -/
def now0 : DateTime := ⟨2025, 10, 12, 0, 0, 0⟩

/-- The store of a fresh start: no reservations, counter 1, matching file. -/
def empty_store : Store := ⟨[], 1, ([], 1)⟩

/-- A fresh start whose loaded `next_id` happens to be 42. -/
def empty_store_42 : Store := ⟨[], 42, ([], 42)⟩

/-- The record `create(u1, c1, "2099-01-01", "14:00", "15:00")` stores. -/
def rec1 : Reservation := ⟨"u1", 1, "2099-01-01", "14:00", "15:00"⟩

/-- The store after creating `rec1` from `empty_store`. -/
def store_after : Store := ⟨[(1, rec1)], 2, ([(1, rec1)], 2)⟩

/-- A hand-crafted store fixture: one reservation of `u1` in classroom 1. -/
def sample_store : Store := store_after

instance exceptDecEq {ε α : Type} [DecidableEq ε] [DecidableEq α] : DecidableEq (Except ε α)
  | .error e1, .error e2 =>
    if h : e1 = e2 then .isTrue (by rw [h]) else .isFalse (by intro hc; cases hc; exact h rfl)
  | .error _, .ok _ => .isFalse (by intro hc; cases hc)
  | .ok _, .error _ => .isFalse (by intro hc; cases hc)
  | .ok a1, .ok a2 =>
    if h : a1 = a2 then .isTrue (by rw [h]) else .isFalse (by intro hc; cases hc; exact h rfl)

instance noOverlapInv.dec (s : Store) : Decidable (NoOverlapInv s) := by
  unfold NoOverlapInv; infer_instance

instance idInv.dec (s : Store) : Decidable (IdInv s) := by
  unfold IdInv; infer_instance

/-! ### Helper lemmas about the dictionary operations -/

theorem dictLookup_dictInsert_self (m : ResvMap) (k : Int) (r : Reservation) :
    dictLookup (dictInsert m k r) k = some r := by
  induction m with
  | nil => simp [dictInsert, dictLookup]
  | cons p rest ih =>
    by_cases h : p.1 = k
    · simp [dictInsert, h, dictLookup]
    · simp [dictInsert, h, dictLookup, ih]

theorem mem_dictInsert {m : ResvMap} {k : Int} {r : Reservation} {q : Int × Reservation}
    (hq : q ∈ dictInsert m k r) : q ∈ m ∨ q = (k, r) := by
  induction m with
  | nil => simp [dictInsert] at hq; simp [hq]
  | cons p rest ih =>
    by_cases h : p.1 = k
    · simp [dictInsert, h] at hq
      rcases hq with hq | hq
      · exact Or.inr (by simp [hq])
      · exact Or.inl (List.mem_cons_of_mem _ hq)
    · simp [dictInsert, h] at hq
      rcases hq with hq | hq
      · exact Or.inl (by simp [hq])
      · rcases ih hq with h2 | h2
        · exact Or.inl (List.mem_cons_of_mem _ h2)
        · exact Or.inr h2

theorem pairwise_dictInsert {R : Int × Reservation → Int × Reservation → Prop}
    {l : ResvMap} {k : Int} {r : Reservation}
    (hl : l.Pairwise R) (h1 : ∀ p ∈ l, R (k, r) p) (h2 : ∀ p ∈ l, R p (k, r)) :
    (dictInsert l k r).Pairwise R := by
  induction l with
  | nil => simp [dictInsert]
  | cons p rest ih =>
    rcases List.pairwise_cons.mp hl with ⟨hp, hrest⟩
    by_cases h : p.1 = k
    · simp only [dictInsert, h, if_pos rfl]
      exact List.pairwise_cons.mpr
        ⟨fun q hq => h1 q (List.mem_cons_of_mem _ hq), hrest⟩
    · simp only [dictInsert, h, if_neg h]
      refine List.pairwise_cons.mpr ⟨?_, ?_⟩
      · intro q hq
        rcases mem_dictInsert hq with hq2 | hq2
        · exact hp q hq2
        · exact hq2 ▸ h2 p (List.mem_cons_self p rest)
      · exact ih hrest (fun q hq => h1 q (List.mem_cons_of_mem _ hq))
          (fun q hq => h2 q (List.mem_cons_of_mem _ hq))

theorem mem_dictErase {m : ResvMap} {k : Int} {q : Int × Reservation}
    (hq : q ∈ dictErase m k) : q ∈ m :=
  List.mem_of_mem_filter hq

theorem dictLookup_dictErase (m : ResvMap) (k : Int) :
    dictLookup (dictErase m k) k = none := by
  induction m with
  | nil => rfl
  | cons p rest ih =>
    by_cases h : p.1 = k
    · simpa [dictErase, List.filter, h] using ih
    · simp only [dictErase, List.filter, decide_eq_true_eq] at ih ⊢
      simp [h, dictLookup, ih]

/-! ### Helper lemmas about the time helpers and the overlap scan -/

theorem is_time_overlap_symm (a b c d : Time) :
    is_time_overlap a b c d = is_time_overlap c d a b := by
  simp [is_time_overlap, Bool.and_comm]

theorem parse_time_error_msg {s m : String} (h : parse_time s = .error m) :
    m = invalid_time_msg s := by
  unfold parse_time at h
  split at h <;> try (cases h; rfl)
  split at h <;> try (cases h; rfl)
  split at h <;> cases h <;> rfl

theorem parse_date_error_msg {s m : String} (h : parse_date s = .error m) :
    m = invalid_date_msg s := by
  unfold parse_date at h
  split at h <;> try (cases h; rfl)
  split at h <;> try (cases h; rfl)
  split at h <;> cases h <;> rfl

theorem records_conflict_symm (r1 r2 : Reservation) :
    records_conflict r1 r2 = records_conflict r2 r1 := by
  unfold records_conflict
  rcases h1 : parse_time r1.start_time with e1 | t1 <;>
    rcases h2 : parse_time r1.end_time with e2 | t2 <;>
      rcases h3 : parse_time r2.start_time with e3 | t3 <;>
        rcases h4 : parse_time r2.end_time with e4 | t4 <;>
          simp [is_time_overlap, Bool.and_assoc, Bool.and_comm, eq_comm]

/-- If the step-4 scan finishes without reporting an overlap, the candidate
record conflicts (in either orientation) with no scanned record. -/
theorem scan_overlap_false_no_conflict {c : Int} {ds : String} {t1 t2 : Time}
    {u ts es : String} (hts : parse_time ts = .ok t1) (hes : parse_time es = .ok t2) :
    ∀ l : ResvMap, scan_overlap c ds t1 t2 l = .ok false →
      ∀ p ∈ l, records_conflict (⟨u, c, ds, ts, es⟩ : Reservation) p.2 = false ∧
        records_conflict p.2 ⟨u, c, ds, ts, es⟩ = false := by
  intro l
  induction l with
  | nil => intro _ p hp; cases hp
  | cons q rest ih =>
    intro h p hp
    unfold scan_overlap at h
    by_cases hcd : q.2.classroom_id = c ∧ q.2.date = ds
    · rw [if_pos hcd] at h
      split at h
      · cases h
      · rename_i t3 h3
        split at h
        · cases h
        · rename_i t4 h4
          split at h
          · cases h
          · rename_i hov
            have hovf : is_time_overlap t1 t2 t3 t4 = false := Bool.eq_false_iff.mpr hov
            rcases List.mem_cons.mp hp with hpq | hpr
            · subst hpq
              constructor
              · simp [records_conflict, hts, hes, h3, h4, hovf]
              · have hovf2 : is_time_overlap t3 t4 t1 t2 = false := by
                  rw [is_time_overlap_symm]; exact hovf
                simp [records_conflict, hts, hes, h3, h4, hovf2]
            · exact ih h p hpr
    · rw [if_neg hcd] at h
      rcases List.mem_cons.mp hp with hpq | hpr
      · rw [hpq]
        rcases not_and_or.mp hcd with hne | hne
        · have d1 : (decide (c = q.2.classroom_id)) = false :=
            decide_eq_false fun hc => hne hc.symm
          have d2 : (decide (q.2.classroom_id = c)) = false := decide_eq_false hne
          constructor
          · simp only [records_conflict, d1, Bool.false_and, Bool.and_false]
          · simp only [records_conflict, d2, Bool.false_and, Bool.and_false]
        · have d1 : (decide (ds = q.2.date)) = false :=
            decide_eq_false fun hc => hne hc.symm
          have d2 : (decide (q.2.date = ds)) = false := decide_eq_false hne
          constructor
          · simp only [records_conflict, d1, Bool.false_and, Bool.and_false]
          · simp only [records_conflict, d2, Bool.false_and, Bool.and_false]
      · exact ih h p hpr

/-- When every stored record of the scanned classroom and date parses, the
scan cannot raise. -/
theorem scan_overlap_no_error {c : Int} {ds : String} {t1 t2 : Time} :
    ∀ l : ResvMap,
      (∀ p ∈ l, p.2.classroom_id = c → p.2.date = ds →
        (parse_time p.2.start_time).isOk = true ∧ (parse_time p.2.end_time).isOk = true) →
      ∃ b, scan_overlap c ds t1 t2 l = .ok b := by
  intro l
  induction l with
  | nil => intro _; exact ⟨false, rfl⟩
  | cons q rest ih =>
    intro hok
    unfold scan_overlap
    by_cases hcd : q.2.classroom_id = c ∧ q.2.date = ds
    · rw [if_pos hcd]
      rcases hok q (List.mem_cons_self q rest) hcd.1 hcd.2 with ⟨hs, he⟩
      rcases h3 : parse_time q.2.start_time with e3 | t3
      · rw [h3] at hs; cases hs
      rcases h4 : parse_time q.2.end_time with e4 | t4
      · rw [h4] at he; cases he
      by_cases hov : is_time_overlap t1 t2 t3 t4 = true
      · exact ⟨true, by simp [hov]⟩
      · rcases ih (fun p hp => hok p (List.mem_cons_of_mem _ hp)) with ⟨b, hb⟩
        exact ⟨b, by simp [Bool.eq_false_iff.mpr hov, hb]⟩
    · rw [if_neg hcd]
      exact ih fun p hp => hok p (List.mem_cons_of_mem _ hp)

/-! ### State-shape lemmas for the three mutating operations -/

theorem ok_pair_eq {r r2 : Bool × String} {s s2 : Store}
    (h : (Except.ok (r, s) : Except String ((Bool × String) × Store)) = .ok (r2, s2)) :
    r2 = r ∧ s2 = s := by
  cases h; exact ⟨rfl, rfl⟩

/-- Every `.ok` outcome of `create_reservation` either left the store as it
was (a validation rejection) or is the step-5 success state; in the latter
case the result is the success pair, the candidate times parsed, and the
scan reported no overlap. -/
theorem create_reservation_cases (u : String) (c : Int) (ds ts es : String)
    (now : DateTime) (s : Store) (r : Bool × String) (s2 : Store)
    (h : create_reservation u c ds ts es now s = .ok (r, s2)) :
    (r.1 = false ∧ s2 = s) ∨
      (r = (true, created_msg) ∧
        (∃ t1 t2, parse_time ts = .ok t1 ∧ parse_time es = .ok t2 ∧
          scan_overlap c ds t1 t2 s.reservations = .ok false) ∧
        s2 = save_reservations
          { reservations := dictInsert s.reservations s.next_id ⟨u, c, ds, ts, es⟩,
            next_id := s.next_id + 1,
            persisted := s.persisted }) := by
  unfold create_reservation at h
  split at h
  · exact Or.inl ⟨congrArg Prod.fst (ok_pair_eq h).1, (ok_pair_eq h).2⟩
  next d hd =>
    split at h
    · exact Or.inl ⟨congrArg Prod.fst (ok_pair_eq h).1, (ok_pair_eq h).2⟩
    next t1 ht1 =>
      split at h
      · exact Or.inl ⟨congrArg Prod.fst (ok_pair_eq h).1, (ok_pair_eq h).2⟩
      next t2 ht2 =>
        split at h
        · exact Or.inl ⟨congrArg Prod.fst (ok_pair_eq h).1, (ok_pair_eq h).2⟩
        · split at h
          · exact Or.inl ⟨congrArg Prod.fst (ok_pair_eq h).1, (ok_pair_eq h).2⟩
          · split at h
            · cases h
            next hscan => exact Or.inl ⟨congrArg Prod.fst (ok_pair_eq h).1, (ok_pair_eq h).2⟩
            next hscan =>
              rcases ok_pair_eq h with ⟨h1, h2⟩
              exact Or.inr ⟨h1, ⟨t1, t2, ht1, ht2, hscan⟩, h2⟩

theorem cancel_reservation_cases (rid : Int) (uid : String) (s : Store) :
    (cancel_reservation rid uid s).2 = s ∨
      (cancel_reservation rid uid s).2 =
        save_reservations { s with reservations := dictErase s.reservations rid } := by
  unfold cancel_reservation
  split
  · exact Or.inl rfl
  · split
    · exact Or.inl rfl
    · exact Or.inr rfl

theorem delete_reservation_cases (rid : Int) (s : Store) :
    (delete_reservation rid s).2 = s ∨
      (delete_reservation rid s).2 =
        save_reservations { s with reservations := dictErase s.reservations rid } := by
  unfold delete_reservation
  split
  · exact Or.inr rfl
  · exact Or.inl rfl

/-- Any single operation leaves the store alone, erases one key, or inserts
the fresh record under the current counter after a clean scan. -/
theorem applyOp_cases (s : Store) (op : Op) :
    applyOp s op = s ∨
      (∃ rid, applyOp s op =
        save_reservations { s with reservations := dictErase s.reservations rid }) ∨
      (∃ u c ds ts es t1 t2,
        parse_time ts = .ok t1 ∧ parse_time es = .ok t2 ∧
        scan_overlap c ds t1 t2 s.reservations = .ok false ∧
        applyOp s op = save_reservations
          { reservations := dictInsert s.reservations s.next_id ⟨u, c, ds, ts, es⟩,
            next_id := s.next_id + 1, persisted := s.persisted }) := by
  cases op with
  | create u c ds ts es now =>
    simp only [applyOp]
    rcases hres : create_reservation u c ds ts es now s with e | ⟨r, s2⟩
    · exact Or.inl rfl
    · rcases create_reservation_cases u c ds ts es now s r s2 hres with
        ⟨_, h⟩ | ⟨_, ⟨t1, t2, ht1, ht2, hscan⟩, h2⟩
      · exact Or.inl h
      · exact Or.inr (Or.inr ⟨u, c, ds, ts, es, t1, t2, ht1, ht2, hscan, h2⟩)
  | cancel rid uid =>
    rcases cancel_reservation_cases rid uid s with h | h
    · exact Or.inl h
    · exact Or.inr (Or.inl ⟨rid, h⟩)
  | del rid =>
    rcases delete_reservation_cases rid s with h | h
    · exact Or.inl h
    · exact Or.inr (Or.inl ⟨rid, h⟩)

/-! ### Preservation lemmas -/

theorem applyOp_no_overlap {s : Store} (op : Op) (hinv : NoOverlapInv s) :
    NoOverlapInv (applyOp s op) := by
  rcases applyOp_cases s op with h | ⟨rid, h⟩ | ⟨u, c, ds, ts, es, t1, t2, ht1, ht2, hscan, h⟩
  · rw [h]; exact hinv
  · rw [h]
    exact List.Pairwise.sublist (List.filter_sublist _) hinv
  · rw [h]
    have hfacts := scan_overlap_false_no_conflict (u := u) ht1 ht2 s.reservations hscan
    exact pairwise_dictInsert hinv (fun p hp => (hfacts p hp).1) (fun p hp => (hfacts p hp).2)

theorem applyOps_no_overlap {s : Store} (ops : List Op) (hinv : NoOverlapInv s) :
    NoOverlapInv (applyOps s ops) := by
  induction ops generalizing s with
  | nil => exact hinv
  | cons op ops ih => exact ih (applyOp_no_overlap op hinv)

theorem applyOp_next_id_mono (s : Store) (op : Op) :
    s.next_id ≤ (applyOp s op).next_id := by
  rcases applyOp_cases s op with h | ⟨rid, h⟩ | ⟨u, c, ds, ts, es, t1, t2, _, _, _, h⟩ <;>
    rw [h] <;> simp [save_reservations]

theorem applyOp_IdInv {s : Store} (op : Op) (hinv : IdInv s) : IdInv (applyOp s op) := by
  rcases applyOp_cases s op with h | ⟨rid, h⟩ | ⟨u, c, ds, ts, es, t1, t2, _, _, _, h⟩ <;> rw [h]
  · exact hinv
  · intro p hp
    exact hinv p (mem_dictErase hp)
  · intro p hp
    rcases mem_dictInsert hp with hp2 | hp2
    · have := hinv p hp2
      simp only [save_reservations] at *
      omega
    · rw [hp2]
      simp only [save_reservations]
      omega

theorem applyOp_key_absent {s : Store} (op : Op) {k : Int} (hlt : k < s.next_id)
    (habs : ∀ r, (k, r) ∉ s.reservations) : ∀ r, (k, r) ∉ (applyOp s op).reservations := by
  rcases applyOp_cases s op with h | ⟨rid, h⟩ | ⟨u, c, ds, ts, es, t1, t2, _, _, _, h⟩ <;> rw [h]
  · exact habs
  · intro r hr
    exact habs r (mem_dictErase hr)
  · intro r hr
    rcases mem_dictInsert hr with hr2 | hr2
    · exact habs r hr2
    · have : k = s.next_id := congrArg Prod.fst hr2
      omega

theorem applyOps_IdInv {s : Store} (ops : List Op) (hinv : IdInv s) :
    IdInv (applyOps s ops) ∧ s.next_id ≤ (applyOps s ops).next_id := by
  induction ops generalizing s with
  | nil => exact ⟨hinv, le_refl _⟩
  | cons op ops ih =>
    rcases ih (applyOp_IdInv op hinv) with ⟨h1, h2⟩
    exact ⟨h1, le_trans (applyOp_next_id_mono s op) h2⟩

theorem applyOps_key_absent {s : Store} (ops : List Op) {k : Int} (hlt : k < s.next_id)
    (habs : ∀ r, (k, r) ∉ s.reservations) :
    ∀ r, (k, r) ∉ (applyOps s ops).reservations := by
  induction ops generalizing s with
  | nil => exact habs
  | cons op ops ih =>
    exact ih (lt_of_lt_of_le hlt (applyOp_next_id_mono s op)) (applyOp_key_absent op hlt habs)

/-! ### Claim theorems -/

/-- C1: starting from any store state in which no two distinct reservations
with the same `classroom_id` and the same date string have overlapping
half-open `[start_time, end_time)` intervals, every sequence of
`create_reservation`, `cancel_reservation` and `delete_reservation` calls
preserves that property (records whose stored time strings do not parse
denote no interval and constrain nothing). -/
theorem no_overlap_invariant_preserved (s : Store) (ops : List Op)
    (hinv : NoOverlapInv s) : NoOverlapInv (applyOps s ops) :=
  applyOps_no_overlap ops hinv

/-- Witness for C1 at a concrete store and operation sequence. -/
theorem no_overlap_invariant_preserved_witness :
    NoOverlapInv sample_store ∧
      NoOverlapInv (applyOps sample_store
        [.create "u2" 1 "2099-01-01" "15:00" "16:00" now0, .cancel 1 "u1"]) :=
  ⟨by decide, no_overlap_invariant_preserved sample_store
    [.create "u2" 1 "2099-01-01" "15:00" "16:00" now0, .cancel 1 "u1"] (by decide)⟩

/-- C5: `_is_valid_time_slot(start, end)` is true iff both minutes are zero
and the end hour equals the start hour plus one modulo 24; hence every slot
`H:00`–`(H+1):00` with `H ≤ 22` is valid, any non-zero minute invalidates,
and the midnight-wrapping slot `23:00`–`00:00` is accepted as valid. -/
theorem valid_time_slot_spec :
    (∀ s e : Time, is_valid_time_slot s e = true ↔
      (s.minute = 0 ∧ e.minute = 0 ∧ e.hour = (s.hour + 1) % 24)) ∧
    (∀ H : Nat, H ≤ 22 → is_valid_time_slot ⟨H, 0⟩ ⟨H + 1, 0⟩ = true) ∧
    (∀ s e : Time, s.minute ≠ 0 ∨ e.minute ≠ 0 → is_valid_time_slot s e = false) ∧
    is_valid_time_slot ⟨23, 0⟩ ⟨0, 0⟩ = true := by
  refine ⟨?_, ?_, ?_, by decide⟩
  · intro s e
    unfold is_valid_time_slot
    by_cases hm : s.minute ≠ 0 ∨ e.minute ≠ 0
    · rw [if_pos hm]
      constructor
      · intro h; exact Bool.noConfusion h
      · rintro ⟨h1, h2, _⟩
        rcases hm with hm | hm
        · exact absurd h1 hm
        · exact absurd h2 hm
    · rw [if_neg hm]
      push_neg at hm
      simp [hm.1, hm.2]
  · intro H hH
    simp only [is_valid_time_slot]
    have h24 : (H + 1) % 24 = H + 1 := Nat.mod_eq_of_lt (by omega)
    simp [h24]
  · intro s e hm
    unfold is_valid_time_slot
    rw [if_pos hm]

/-- Witness for C5 at concrete slots. -/
theorem valid_time_slot_spec_witness :
    is_valid_time_slot ⟨14, 0⟩ ⟨15, 0⟩ = true ∧
      is_valid_time_slot ⟨14, 30⟩ ⟨15, 30⟩ = false :=
  ⟨valid_time_slot_spec.2.1 14 (by decide),
    valid_time_slot_spec.2.2.1 ⟨14, 30⟩ ⟨15, 30⟩ (Or.inl (by decide))⟩

/-- C6: `_is_time_overlap` is true iff, in minutes since midnight,
`start1 < end2` and `start2 < end1` (half-open overlap); touching intervals
do not overlap, genuinely crossing ones do. -/
theorem time_overlap_spec :
    (∀ t1 t2 t3 t4 : Time, is_time_overlap t1 t2 t3 t4 = true ↔
      (time_to_minutes t1 < time_to_minutes t4 ∧
        time_to_minutes t3 < time_to_minutes t2)) ∧
    is_time_overlap ⟨9, 0⟩ ⟨10, 0⟩ ⟨10, 0⟩ ⟨11, 0⟩ = false ∧
    is_time_overlap ⟨9, 0⟩ ⟨10, 0⟩ ⟨9, 30⟩ ⟨10, 30⟩ = true := by
  refine ⟨?_, by decide, by decide⟩
  intro t1 t2 t3 t4
  simp [is_time_overlap]

/-- C8: whenever the counter strictly dominates every stored id, each
operation preserves that relation and never decreases the counter, and an
id below the counter that is absent (for example because it was cancelled
or deleted) is never present again after any further operation sequence. -/
theorem id_counter_monotone (s : Store) (hinv : IdInv s) :
    (∀ op, IdInv (applyOp s op) ∧ s.next_id ≤ (applyOp s op).next_id) ∧
    (∀ ops, IdInv (applyOps s ops) ∧ s.next_id ≤ (applyOps s ops).next_id) ∧
    (∀ k, k < s.next_id → (∀ r, (k, r) ∉ s.reservations) →
      ∀ ops r, (k, r) ∉ (applyOps s ops).reservations) := by
  refine ⟨fun op => ⟨applyOp_IdInv op hinv, applyOp_next_id_mono s op⟩,
    fun ops => applyOps_IdInv ops hinv, ?_⟩
  intro k hk habs ops r
  exact applyOps_key_absent ops hk habs r

/-- Witness for C8 at a concrete store and operation sequence. -/
theorem id_counter_monotone_witness :
    IdInv (applyOps sample_store [.del 1, .create "u2" 1 "2099-01-01" "15:00" "16:00" now0]) ∧
      sample_store.next_id ≤
        (applyOps sample_store
          [.del 1, .create "u2" 1 "2099-01-01" "15:00" "16:00" now0]).next_id :=
  (id_counter_monotone sample_store (by decide)).2.1
    [.del 1, .create "u2" 1 "2099-01-01" "15:00" "16:00" now0]

/-- C10: whenever `create_reservation` or `cancel_reservation` returns a
failure result, the whole store (reservation mapping, `_next_id` counter,
and persisted snapshot) is exactly as before the call: rejection is atomic
and consumes no id. -/
theorem rejection_atomic :
    ∀ (u : String) (c : Int) (ds ts es : String) (now : DateTime) (s : Store),
      (∀ m s2, create_reservation u c ds ts es now s = .ok ((false, m), s2) → s2 = s) ∧
      (∀ rid uid m, (cancel_reservation rid uid s).1 = (false, m) →
        (cancel_reservation rid uid s).2 = s) := by
  intro u c ds ts es now s
  constructor
  · intro m s2 h
    rcases create_reservation_cases u c ds ts es now s (false, m) s2 h with ⟨_, h2⟩ | ⟨h2, _, _⟩
    · exact h2
    · exact absurd (congrArg Prod.fst h2) (by simp)
  · intro rid uid m h
    rcases hl : dictLookup s.reservations rid with _ | r
    · simp [cancel_reservation, hl]
    · by_cases ho : r.user_id = uid
      · simp [cancel_reservation, hl, ho] at h
      · simp [cancel_reservation, hl, ho]

/-- Witness for C10: a slot-conflict rejection and a not-found cancellation
both leave the concrete store untouched. -/
theorem rejection_atomic_witness :
    sample_store = sample_store ∧
      (cancel_reservation 5 "u1" sample_store).2 = sample_store :=
  ⟨(rejection_atomic "u1" 1 "2099-01-01" "14:00" "15:00" now0 sample_store).1
      conflict_msg sample_store (by decide),
    (rejection_atomic "u1" 1 "2099-01-01" "14:00" "15:00" now0 sample_store).2
      5 "u1" not_found_msg (by decide)⟩

/-- C7: `cancel_reservation` fails with the not-found message when the id is
absent, fails with the not-owner message when the stored record belongs to a
different user, and otherwise removes the record, persists, and succeeds,
after which `get_reservation` on that id returns absent. -/
theorem cancel_reservation_spec (rid : Int) (uid : String) (s : Store) :
    (get_reservation s rid = none →
      cancel_reservation rid uid s = ((false, not_found_msg), s)) ∧
    (∀ r, get_reservation s rid = some r → r.user_id ≠ uid →
      cancel_reservation rid uid s = ((false, not_owner_msg), s)) ∧
    (∀ r, get_reservation s rid = some r → r.user_id = uid →
      cancel_reservation rid uid s =
        ((true, cancelled_msg),
          save_reservations { s with reservations := dictErase s.reservations rid }) ∧
      get_reservation (cancel_reservation rid uid s).2 rid = none) := by
  refine ⟨?_, ?_, ?_⟩
  · intro h
    unfold get_reservation at h
    simp [cancel_reservation, h]
  · intro r h ho
    unfold get_reservation at h
    simp [cancel_reservation, h, ho]
  · intro r h ho
    unfold get_reservation at h
    have hc : cancel_reservation rid uid s =
        ((true, cancelled_msg),
          save_reservations { s with reservations := dictErase s.reservations rid }) := by
      simp [cancel_reservation, h, ho]
    refine ⟨hc, ?_⟩
    rw [hc]
    exact dictLookup_dictErase s.reservations rid

/-- Witness for C7: not-owner rejection, then a successful owner cancel
followed by an absent lookup, on a concrete store. -/
theorem cancel_reservation_spec_witness :
    cancel_reservation 1 "u2" sample_store = ((false, not_owner_msg), sample_store) ∧
      (cancel_reservation 1 "u1" sample_store =
        ((true, cancelled_msg),
          save_reservations
            { sample_store with reservations := dictErase sample_store.reservations 1 }) ∧
        get_reservation (cancel_reservation 1 "u1" sample_store).2 1 = none) :=
  ⟨(cancel_reservation_spec 1 "u2" sample_store).2.1 rec1 (by decide) (by decide),
    (cancel_reservation_spec 1 "u1" sample_store).2.2 rec1 (by decide) (by decide)⟩

/-- C3: `create_reservation` validates in exactly this short-circuit order:
date parse, start-time parse, end-time parse (failing with the
invalid-format message that carries the offending string), then the
past-time check, then the slot-shape check, then the overlap scan (first
overlap wins); consequently a past date+start-time with otherwise
well-formed fields always fails with the past-time reason. -/
theorem create_validation_order
    (u : String) (c : Int) (ds ts es : String) (now : DateTime) (s : Store) :
    (∀ e, parse_date ds = .error e →
      create_reservation u c ds ts es now s = .ok ((false, invalid_date_msg ds), s)) ∧
    (∀ d e, parse_date ds = .ok d → parse_time ts = .error e →
      create_reservation u c ds ts es now s = .ok ((false, invalid_time_msg ts), s)) ∧
    (∀ d t1 e, parse_date ds = .ok d → parse_time ts = .ok t1 → parse_time es = .error e →
      create_reservation u c ds ts es now s = .ok ((false, invalid_time_msg es), s)) ∧
    (∀ d t1 t2, parse_date ds = .ok d → parse_time ts = .ok t1 → parse_time es = .ok t2 →
      is_past_datetime d t1 now = true →
      create_reservation u c ds ts es now s = .ok ((false, past_msg), s)) ∧
    (∀ d t1 t2, parse_date ds = .ok d → parse_time ts = .ok t1 → parse_time es = .ok t2 →
      is_past_datetime d t1 now = false → is_valid_time_slot t1 t2 = false →
      create_reservation u c ds ts es now s = .ok ((false, slot_shape_msg), s)) ∧
    (∀ d t1 t2, parse_date ds = .ok d → parse_time ts = .ok t1 → parse_time es = .ok t2 →
      is_past_datetime d t1 now = false → is_valid_time_slot t1 t2 = true →
      scan_overlap c ds t1 t2 s.reservations = .ok true →
      create_reservation u c ds ts es now s = .ok ((false, conflict_msg), s)) := by
  refine ⟨?_, ?_, ?_, ?_, ?_, ?_⟩
  · intro e he
    have hm := parse_date_error_msg he
    rw [hm] at he
    simp [create_reservation, he]
  · intro d e hd he
    have hm := parse_time_error_msg he
    rw [hm] at he
    simp [create_reservation, hd, he]
  · intro d t1 e hd ht1 he
    have hm := parse_time_error_msg he
    rw [hm] at he
    simp [create_reservation, hd, ht1, he]
  · intro d t1 t2 hd ht1 ht2 hpast
    simp [create_reservation, hd, ht1, ht2, hpast]
  · intro d t1 t2 hd ht1 ht2 hpast hslot
    simp [create_reservation, hd, ht1, ht2, hpast, hslot]
  · intro d t1 t2 hd ht1 ht2 hpast hslot hscan
    simp [create_reservation, hd, ht1, ht2, hpast, hslot, hscan]

/-- Witness for C3: a well-formed past request is rejected with the
past-time reason, and a malformed date is rejected with the invalid-date
message carrying the offending string. -/
theorem create_validation_order_witness :
    create_reservation "u1" 1 "2020-01-01" "14:00" "15:00" now0 empty_store =
      .ok ((false, past_msg), empty_store) ∧
    create_reservation "u1" 1 "oops" "14:00" "15:00" now0 empty_store =
      .ok ((false, invalid_date_msg "oops"), empty_store) :=
  ⟨(create_validation_order "u1" 1 "2020-01-01" "14:00" "15:00" now0 empty_store).2.2.2.1
      ⟨2020, 1, 1⟩ ⟨14, 0⟩ ⟨15, 0⟩ (by decide) (by decide) (by decide) (by decide),
    (create_validation_order "u1" 1 "oops" "14:00" "15:00" now0 empty_store).1
      (invalid_date_msg "oops") (by decide)⟩

/-- C2 counterexample: `create_reservation` does NOT return the newly
assigned id.  The same successful call made in a state about to assign id 1
and in a state about to assign id 42 returns the exact same caller-visible
value — the constant pair `(True, success message)`, which carries no id —
while the new record is stored under id 1 in the first case and under id 42
in the second.  (The source returns `(True, "예약이 성공적으로
생성되었습니다.")` and discards `reservation_id`.) -/
theorem create_result_carries_no_id :
    (create_reservation "u1" 1 "2099-01-01" "14:00" "15:00" now0 empty_store).map Prod.fst =
      .ok (true, created_msg) ∧
    (create_reservation "u1" 1 "2099-01-01" "14:00" "15:00" now0 empty_store_42).map Prod.fst =
      .ok (true, created_msg) ∧
    create_reservation "u1" 1 "2099-01-01" "14:00" "15:00" now0 empty_store =
      .ok ((true, created_msg), store_after) ∧
    create_reservation "u1" 1 "2099-01-01" "14:00" "15:00" now0 empty_store_42 =
      .ok ((true, created_msg), ⟨[(42, rec1)], 43, ([(42, rec1)], 43)⟩) ∧
    dictLookup store_after.reservations 1 = some rec1 ∧
    dictLookup ([(42, rec1)] : ResvMap) 42 = some rec1 := by
  refine ⟨by decide, by decide, by decide, by decide, by decide, by decide⟩

/-- C2 (amended): whenever `create_reservation` succeeds it assigns the
current counter value as the new reservation's id, increments the counter,
inserts the record under that id, persists, and returns `True` with the
(id-free) success message; from an empty store,
`create(u1, c1, "2099-01-01", "14:00", "15:00")` succeeds storing the record
under id 1, and a second identical call fails with the slot-conflict
rejection. -/
theorem create_success_spec :
    (∀ (u : String) (c : Int) (ds ts es : String) (now : DateTime) (s : Store)
        (m : String) (s2 : Store),
      create_reservation u c ds ts es now s = .ok ((true, m), s2) →
      m = created_msg ∧
      s2.next_id = s.next_id + 1 ∧
      s2.reservations = dictInsert s.reservations s.next_id ⟨u, c, ds, ts, es⟩ ∧
      dictLookup s2.reservations s.next_id = some ⟨u, c, ds, ts, es⟩ ∧
      s2.persisted = (s2.reservations, s2.next_id)) ∧
    (create_reservation "u1" 1 "2099-01-01" "14:00" "15:00" now0 empty_store =
        .ok ((true, created_msg), store_after) ∧
      dictLookup store_after.reservations 1 = some rec1 ∧
      create_reservation "u1" 1 "2099-01-01" "14:00" "15:00" now0 store_after =
        .ok ((false, conflict_msg), store_after)) := by
  constructor
  · intro u c ds ts es now s m s2 h
    rcases create_reservation_cases u c ds ts es now s (true, m) s2 h with ⟨hf, _⟩ | ⟨h1, _, h2⟩
    · exact Bool.noConfusion hf
    · subst h2
      exact ⟨congrArg Prod.snd h1, rfl, rfl, dictLookup_dictInsert_self _ _ _, rfl⟩
  · exact ⟨by decide, by decide, by decide⟩

/-- Witness for C2's amended theorem at the concrete empty-store call. -/
theorem create_success_spec_witness :
    created_msg = created_msg ∧
      store_after.next_id = empty_store.next_id + 1 ∧
      store_after.reservations = dictInsert empty_store.reservations empty_store.next_id rec1 ∧
      dictLookup store_after.reservations empty_store.next_id = some rec1 ∧
      store_after.persisted = (store_after.reservations, store_after.next_id) :=
  create_success_spec.1 "u1" 1 "2099-01-01" "14:00" "15:00" now0 empty_store
    created_msg store_after (by decide)

/-- A store holding a record whose `start_time` string does not parse (such
a record can only come from a hand-edited or corrupted
`reservations.json`, which `_load_reservations` accepts as long as the file
is well-formed JSON). -/
def bad_time_store : Store :=
  ⟨[(7, ⟨"u1", 1, "2099-01-01", "bad", "10:00"⟩)], 8,
    ([(7, ⟨"u1", 1, "2099-01-01", "bad", "10:00"⟩)], 8)⟩

/-- C4 counterexample: `create_reservation` does not return a result on
EVERY store state — when a stored record sharing the candidate's classroom
and date string has a malformed time string, the step-4 scan calls
`_parse_time` outside the `try` of step 1 and the `ValueError` propagates
out of `create_reservation` (modelled as `.error`) instead of being
returned as a `(success, message)` value. -/
theorem create_raises_on_malformed_stored_time :
    create_reservation "u2" 1 "2099-01-01" "14:00" "15:00" now0 bad_time_store =
      .error (invalid_time_msg "bad") := by decide

/-- C4 (amended): for every argument tuple and every store whose records for
the candidate's classroom and date string carry parseable time strings
(true of every record `create_reservation` itself inserts),
`create_reservation` returns a `(success, message)` result and never
raises; in particular every validation failure on the inputs, including
malformed date or time strings, is returned as a result value. -/
theorem create_total_on_parseable_store
    (u : String) (c : Int) (ds ts es : String) (now : DateTime) (s : Store)
    (hok : ∀ p ∈ s.reservations, p.2.classroom_id = c → p.2.date = ds →
      (parse_time p.2.start_time).isOk = true ∧ (parse_time p.2.end_time).isOk = true) :
    (create_reservation u c ds ts es now s).isOk = true := by
  unfold create_reservation
  rcases hd : parse_date ds with e | d
  · rfl
  rcases ht1 : parse_time ts with e | t1
  · rfl
  rcases ht2 : parse_time es with e | t2
  · rfl
  rcases @scan_overlap_no_error c ds t1 t2 s.reservations hok with ⟨b, hb⟩
  by_cases hpast : is_past_datetime d t1 now = true
  · simp [hpast, Except.isOk, Except.toBool]
  · by_cases hslot : is_valid_time_slot t1 t2 = true
    · cases b <;> simp [hpast, hslot, hb, Except.isOk, Except.toBool]
    · simp [hpast, hslot, Except.isOk, Except.toBool]

/-- Witness for C4's amended theorem: malformed time inputs on a
well-formed store come back as a returned result. -/
theorem create_total_on_parseable_store_witness :
    (create_reservation "u1" 1 "2099-01-01" "25:00" "26:00" now0 sample_store).isOk = true :=
  create_total_on_parseable_store "u1" 1 "2099-01-01" "25:00" "26:00" now0 sample_store
    (by decide)

instance keyLe.isTrans : IsTrans (Int × Reservation) keyLe := ⟨by
  intro a b c hab hbc
  rcases hab with h1 | ⟨h1, h2⟩ <;> rcases hbc with h3 | ⟨h3, h4⟩
  · exact Or.inl (lt_trans h1 h3)
  · exact Or.inl (lt_of_lt_of_eq h1 h3)
  · exact Or.inl (lt_of_eq_of_lt h1 h3)
  · exact Or.inr ⟨h1.trans h3, le_trans h2 h4⟩⟩

instance keyLe.isTotal : IsTotal (Int × Reservation) keyLe := ⟨by
  intro a b
  rcases lt_trichotomy a.2.date b.2.date with h | h | h
  · exact Or.inl (Or.inl h)
  · rcases le_total a.2.start_time b.2.start_time with h2 | h2
    · exact Or.inl (Or.inr ⟨h, h2⟩)
    · exact Or.inr (Or.inr ⟨h.symm, h2⟩)
  · exact Or.inr (Or.inl h)⟩

/-- Two reservations crossing midnight: both were accepted by
`create_reservation` (the wrap slot `23:00`–`00:00` is a valid slot and the
overlap test `1380 < 0 ∧ 1380 < 0` is false, so the second one passes the
scan). -/
def wrap_rec1 : Reservation := ⟨"u1", 1, "2099-01-01", "23:00", "00:00"⟩

/-- The second, identically timed midnight-wrap reservation. -/
def wrap_rec2 : Reservation := ⟨"u2", 1, "2099-01-01", "23:00", "00:00"⟩

/-- A store holding both midnight-wrap reservations. -/
def wrap_store : Store :=
  ⟨[(1, wrap_rec1), (2, wrap_rec2)], 3, ([(1, wrap_rec1), (2, wrap_rec2)], 3)⟩

/-- C9 counterexample: the result of `get_classroom_reservations` is NOT
always strictly ordered by `start_time` when multiple non-overlapping
reservations exist for one classroom on one day.  Two midnight-wrapping
`23:00`–`00:00` slots for the same classroom and date are accepted by
`create_reservation` (their degenerate `[1380, 0)` minute intervals do not
overlap under the half-open test), yet the listing then repeats the same
`start_time`, so the sequence is not strictly ascending. -/
theorem classroom_listing_not_strictly_ascending :
    create_reservation "u2" 1 "2099-01-01" "23:00" "00:00" now0
        ⟨[(1, wrap_rec1)], 2, ([(1, wrap_rec1)], 2)⟩ =
      .ok ((true, created_msg), wrap_store) ∧
    NoOverlapInv wrap_store ∧
    get_classroom_reservations wrap_store 1 (some "2099-01-01") =
      [(1, wrap_rec1), (2, wrap_rec2)] ∧
    ¬ (get_classroom_reservations wrap_store 1 (some "2099-01-01")).Pairwise
        (fun a b => a.2.start_time < b.2.start_time) := by
  exact ⟨by decide, by decide, by decide, by decide⟩

/-- C9 (amended): `get_classroom_reservations` returns exactly the stored
entries of the classroom (each as an `(id, record)` pair), additionally
filtered by exact date-string equality when a non-empty date is supplied,
sorted ascending by the string key `(date, start_time)`; and when the
listed records are pairwise non-overlapping with positive-length parsed
intervals (which excludes degenerate midnight-wrap slots), the returned
`start_time` strings are strictly increasing. -/
theorem get_classroom_reservations_spec (s : Store) (c : Int) :
    (∀ dopt : Option String,
      (get_classroom_reservations s c dopt).Perm
        (match dopt with
          | some d =>
            if d = "" then s.reservations.filter (fun p => p.2.classroom_id = c)
            else (s.reservations.filter (fun p => p.2.classroom_id = c)).filter
              (fun p => p.2.date = d)
          | none => s.reservations.filter (fun p => p.2.classroom_id = c)) ∧
      (get_classroom_reservations s c dopt).Sorted keyLe) ∧
    (∀ d : String, d ≠ "" →
      (∀ p ∈ (s.reservations.filter (fun p => p.2.classroom_id = c)).filter
          (fun p => p.2.date = d),
        ∃ t1 t2, parse_time p.2.start_time = .ok t1 ∧ parse_time p.2.end_time = .ok t2 ∧
          time_to_minutes t1 < time_to_minutes t2) →
      ((s.reservations.filter (fun p => p.2.classroom_id = c)).filter
          (fun p => p.2.date = d)).Pairwise (fun a b => records_conflict a.2 b.2 = false) →
      (get_classroom_reservations s c (some d)).Pairwise
        (fun a b => a.2.start_time < b.2.start_time)) := by
  constructor
  · intro dopt
    cases dopt with
    | none =>
      exact ⟨List.perm_insertionSort keyLe _, List.sorted_insertionSort keyLe _⟩
    | some d =>
      exact ⟨List.perm_insertionSort keyLe _, List.sorted_insertionSort keyLe _⟩
  · intro d hd hpos hnc
    have hgcr : get_classroom_reservations s c (some d) =
        List.insertionSort keyLe
          ((s.reservations.filter (fun p => p.2.classroom_id = c)).filter
            (fun p => p.2.date = d)) := by
      simp only [get_classroom_reservations]
      rw [if_neg hd]
    rw [hgcr]
    have hsorted := List.sorted_insertionSort keyLe
      ((s.reservations.filter (fun p => p.2.classroom_id = c)).filter
        (fun p => p.2.date = d))
    have hperm := List.perm_insertionSort keyLe
      ((s.reservations.filter (fun p => p.2.classroom_id = c)).filter
        (fun p => p.2.date = d))
    have hsymm : Symmetric (fun a b : Int × Reservation => records_conflict a.2 b.2 = false) := by
      intro x y h
      rw [records_conflict_symm]
      exact h
    have hnc2 := (List.Perm.pairwise_iff (fun {_ _} h => hsymm h) hperm).mpr hnc
    have hcomb := List.Pairwise.and hsorted hnc2
    refine List.Pairwise.imp_of_mem ?_ hcomb
    intro a b ha hb hab
    rcases hab with ⟨hkey, hconf⟩
    have ha2 := hperm.mem_iff.mp ha
    have hb2 := hperm.mem_iff.mp hb
    rcases List.mem_filter.mp ha2 with ⟨ha3, ha4⟩
    rcases List.mem_filter.mp hb2 with ⟨hb3, hb4⟩
    rcases List.mem_filter.mp ha3 with ⟨_, ha5⟩
    rcases List.mem_filter.mp hb3 with ⟨_, hb5⟩
    have hadate : a.2.date = d := of_decide_eq_true ha4
    have hbdate : b.2.date = d := of_decide_eq_true hb4
    have haclass : a.2.classroom_id = c := of_decide_eq_true ha5
    have hbclass : b.2.classroom_id = c := of_decide_eq_true hb5
    rcases hpos a ha2 with ⟨ta1, ta2, hpa1, hpa2, hlta⟩
    rcases hpos b hb2 with ⟨tb1, tb2, hpb1, hpb2, hltb⟩
    have hsle : a.2.start_time ≤ b.2.start_time := by
      rcases hkey with hlt | ⟨_, hle⟩
      · rw [hadate, hbdate] at hlt
        exact absurd hlt (lt_irrefl d)
      · exact hle
    have hne : a.2.start_time ≠ b.2.start_time := by
      intro heq
      have hpa1b : parse_time b.2.start_time = .ok ta1 := by rw [← heq]; exact hpa1
      rw [hpb1] at hpa1b
      have hteq : ta1 = tb1 := (Except.ok.inj hpa1b).symm
      have hmeq : time_to_minutes ta1 = time_to_minutes tb1 := by rw [hteq]
      have hct : records_conflict a.2 b.2 = true := by
        have h1 : (decide (a.2.classroom_id = b.2.classroom_id)) = true := by
          rw [haclass, hbclass]; simp
        have h2 : (decide (a.2.date = b.2.date)) = true := by
          rw [hadate, hbdate]; simp
        simp only [records_conflict, hpa1, hpa2, hpb1, hpb2, h1, h2, is_time_overlap,
          Bool.true_and, Bool.and_eq_true, decide_eq_true_eq]
        constructor <;> omega
      rw [hct] at hconf
      exact Bool.noConfusion hconf
    exact lt_of_le_of_ne hsle hne

/-- A store with two non-overlapping one-hour reservations in classroom 1 on
the same day, stored out of time order. -/
def two_slot_store : Store :=
  ⟨[(1, ⟨"u1", 1, "2099-01-01", "15:00", "16:00"⟩),
    (2, ⟨"u2", 1, "2099-01-01", "10:00", "11:00"⟩)], 3,
    ([(1, ⟨"u1", 1, "2099-01-01", "15:00", "16:00"⟩),
      (2, ⟨"u2", 1, "2099-01-01", "10:00", "11:00"⟩)], 3)⟩

/-- Witness for C9's amended theorem on a concrete two-slot store. -/
theorem get_classroom_reservations_spec_witness :
    ((get_classroom_reservations two_slot_store 1 (some "2099-01-01")).Sorted keyLe) ∧
    ((get_classroom_reservations two_slot_store 1 (some "2099-01-01")).Pairwise
      (fun a b => a.2.start_time < b.2.start_time)) :=
  ⟨((get_classroom_reservations_spec two_slot_store 1).1 (some "2099-01-01")).2,
    (get_classroom_reservations_spec two_slot_store 1).2 "2099-01-01" (by decide)
      (by
        intro p hp
        have hcand : ((two_slot_store.reservations.filter
              (fun p => p.2.classroom_id = 1)).filter (fun p => p.2.date = "2099-01-01")) =
            [(1, ⟨"u1", 1, "2099-01-01", "15:00", "16:00"⟩),
             (2, ⟨"u2", 1, "2099-01-01", "10:00", "11:00"⟩)] := by decide
        rw [hcand] at hp
        rcases List.mem_cons.mp hp with rfl | hp2
        · exact ⟨⟨15, 0⟩, ⟨16, 0⟩, by decide, by decide, by decide⟩
        · rcases List.mem_cons.mp hp2 with rfl | hp4
          · exact ⟨⟨10, 0⟩, ⟨11, 0⟩, by decide, by decide, by decide⟩
          · cases hp4)
      (by decide)⟩

end ReservationDB
